import Mathlib

/-!
Verification development for the Gmail agent of this repository
(`gmail_agent.py`): a shallow embedding of the message-dispatch/response
contract (`AgentMessage` envelope, `GmailAgent` dispatcher, email handlers)
together with theorems about its behaviour.

Modelling conventions:
* JSON-compatible values are the inductive `Json`; a Python dict is an
  association list `List (String × Json)` in insertion order.
* External effects (OAuth authentication, the Gmail API send call, the
  local filesystem) are passed in as an explicit `Backend` record; the
  number of interactions with the external backend performed by a call is
  returned as a `Nat` counter.
* Python exceptions raised by dataclass construction are modelled as
  `Except String`; the message text is a faithful paraphrase of the
  CPython `TypeError` text (it names the offending field/key).
* `json.dumps` / `json.loads` (Python standard library, external to the
  repository) are modelled as exact on JSON values, so the wire level is
  represented by `Json` values; a `json.loads` failure is the
  `Except.error` case of the `parsed` argument of `handle_message_json`.
-/

/-- JSON-compatible values: the payloads carried by agent messages. -/
inductive Json where
  | null : Json
  | bool (b : Bool) : Json
  | str (s : String) : Json
  | num (n : Int) : Json
  | arr (elems : List Json) : Json
  | obj (fields : List (String × Json)) : Json

/-- Python truthiness of an optional string: `None` and `""` are falsy. -/
def optStrTruthy : Option String → Bool
  | none => false
  | some s => !s.isEmpty

/-- Python truthiness of an optional list: `None` and `[]` are falsy. -/
def optListTruthy {α : Type} : Option (List α) → Bool
  | none => false
  | some l => !l.isEmpty

/-- Embed an optional string as a JSON value, `none` becoming `null`
(this is how `dataclasses.asdict` serialises an absent optional field). -/
def optStrJson : Option String → Json
  | none => Json.null
  | some s => Json.str s

/-- Embedding of the `AgentMessage` dataclass (gmail_agent.py lines 21-29):
the standard envelope for agent-to-agent communication. -/
structure AgentMessage where
  agent_id : String
  message_type : String
  timestamp : String
  payload : List (String × Json)
  correlation_id : Option String := none
  reply_to : Option String := none

/-- Embedding of the `EmailRequest` dataclass (lines 31-40). -/
structure EmailRequest where
  «to» : List String
  subject : String
  body : String
  cc : Option (List String) := none
  bcc : Option (List String) := none
  attachments : Option (List String) := none
  html_body : Option String := none

/-- Embedding of the `EmailResponse` dataclass (lines 42-48). -/
structure EmailResponse where
  success : Bool
  message_id : Option String := none
  error : Option String := none
  details : Option (List (String × Json)) := none

/-- Coerce a JSON value to a string (the typed view of a field the code
uses as a `str`). -/
def Json.asString : Json → Except String String
  | .str s => .ok s
  | _ => .error "expected a string"

/-- Coerce a JSON value to a list of strings. -/
def Json.asStringList : Json → Except String (List String)
  | .arr elems => elems.mapM Json.asString
  | _ => .error "expected a list of strings"

/-- Coerce a JSON value to an object (dict). -/
def Json.asDict : Json → Except String (List (String × Json))
  | .obj fields => .ok fields
  | _ => .error "expected an object"

/-- Look up a required dataclass field; its absence is the CPython
`TypeError: missing 1 required positional argument` of keyword expansion. -/
def reqField (d : List (String × Json)) (k : String) : Except String Json :=
  match d.lookup k with
  | some v => .ok v
  | none => .error ("missing 1 required positional argument: " ++ k)

/-- Look up an optional string-or-null dataclass field. -/
def optStrField (d : List (String × Json)) (k : String) :
    Except String (Option String) :=
  match d.lookup k with
  | none => .ok none
  | some .null => .ok none
  | some (.str s) => .ok (some s)
  | some _ => .error ("expected a string or null for " ++ k)

/-- Look up an optional list-of-strings-or-null dataclass field. -/
def optStrListField (d : List (String × Json)) (k : String) :
    Except String (Option (List String)) :=
  match d.lookup k with
  | none => .ok none
  | some .null => .ok none
  | some v => do
    let l ← v.asStringList
    .ok (some l)

/-- Field names of the `EmailRequest` dataclass. -/
def emailRequestKeys : List String :=
  ["to", "subject", "body", "cc", "bcc", "attachments", "html_body"]

/-- Embedding of `EmailRequest(**message.payload)` (line 208): keyword
expansion of a dict into the dataclass constructor.  It fails on an
unexpected key or a missing required field; value coercion to the declared
field types is part of the typed embedding. -/
def EmailRequest.ofDict (d : List (String × Json)) :
    Except String EmailRequest := do
  match d.find? (fun kv => !(emailRequestKeys.contains kv.1)) with
  | some kv => .error ("got an unexpected keyword argument " ++ kv.1)
  | none =>
    let «to» ← (← reqField d "to").asStringList
    let subject ← (← reqField d "subject").asString
    let body ← (← reqField d "body").asString
    let cc ← optStrListField d "cc"
    let bcc ← optStrListField d "bcc"
    let attachments ← optStrListField d "attachments"
    let html_body ← optStrField d "html_body"
    .ok ⟨«to», subject, body, cc, bcc, attachments, html_body⟩

/-- Field names of the `AgentMessage` dataclass. -/
def agentMessageKeys : List String :=
  ["agent_id", "message_type", "timestamp", "payload",
   "correlation_id", "reply_to"]

/-- Embedding of `AgentMessage(**message_data)` (line 267): keyword
expansion of the parsed JSON object into the envelope constructor.  It
fails on an unexpected key or a missing required field (`agent_id`,
`message_type`, `timestamp`, `payload`). -/
def AgentMessage.ofDict (d : List (String × Json)) :
    Except String AgentMessage := do
  match d.find? (fun kv => !(agentMessageKeys.contains kv.1)) with
  | some kv => .error ("got an unexpected keyword argument " ++ kv.1)
  | none =>
    let agent_id ← (← reqField d "agent_id").asString
    let message_type ← (← reqField d "message_type").asString
    let timestamp ← (← reqField d "timestamp").asString
    let payload ← (← reqField d "payload").asDict
    let correlation_id ← optStrField d "correlation_id"
    let reply_to ← optStrField d "reply_to"
    .ok ⟨agent_id, message_type, timestamp, payload, correlation_id, reply_to⟩

/-- Parse a wire-level JSON value into an `AgentMessage`
(`json.loads` output fed to the constructor, lines 266-267). -/
def AgentMessage.ofJson (j : Json) : Except String AgentMessage := do
  let d ← j.asDict
  AgentMessage.ofDict d

/-- Embedding of `dataclasses.asdict` on an `AgentMessage` (lines 273,
282, 291): the six fields in declaration order, absent optionals as
`null`. -/
def AgentMessage.asdict (m : AgentMessage) : Json :=
  .obj [("agent_id", .str m.agent_id),
        ("message_type", .str m.message_type),
        ("timestamp", .str m.timestamp),
        ("payload", .obj m.payload),
        ("correlation_id", optStrJson m.correlation_id),
        ("reply_to", optStrJson m.reply_to)]

/-- Embedding of `dataclasses.asdict` on an `EmailResponse` (line 212). -/
def EmailResponse.asdict (r : EmailResponse) : List (String × Json) :=
  [("success", .bool r.success),
   ("message_id", optStrJson r.message_id),
   ("error", optStrJson r.error),
   ("details", match r.details with
               | none => Json.null
               | some d => Json.obj d)]

/-- Result record of the external Gmail API send call
(`service.users().messages().send(...).execute()`, lines 176-179):
the API returns a dict with an `id` and optionally a `threadId`. -/
structure GmailSendResult where
  id : String
  threadId : Option String

/-- Outcome of the one external Gmail API send call when it is made:
success, an `HttpError` (caught at line 189), or any other exception
(caught at line 194). -/
inductive GmailSendOutcome where
  | ok (r : GmailSendResult) : GmailSendOutcome
  | httpError (msg : String) : GmailSendOutcome
  | otherError (msg : String) : GmailSendOutcome

/-- External collaborators of the agent, fixed for one call: whether the
OAuth authentication flow would succeed (`authenticate`, lines 76-106),
the outcome the Gmail API would return for a send, and the set of paths
that exist on the local filesystem (`os.path.exists`, line 139; reading
an existing file is modelled as succeeding). -/
structure Backend where
  authOk : Bool
  send : GmailSendOutcome
  fs : List String

/-- Mutable state of a `GmailAgent` instance relevant to the dispatch
contract: its identity and whether `self.service` (the backend session
handle) has been set (lines 53-58; `None` at construction).  The
credential/token file paths, scopes and logger are external I/O
configuration with no bearing on the dispatch contract. -/
structure GmailAgent where
  agent_id : String
  service : Bool

/-- Embedding of `GmailAgent.authenticate` (lines 76-106): on success the
session handle `self.service` is set and `True` is returned; on failure
the exception is caught, the state is unchanged and `False` is returned.
It is one interaction with the external backend. -/
def GmailAgent.authenticate (a : GmailAgent) (b : Backend) :
    Bool × GmailAgent :=
  if b.authOk then (true, { a with service := true }) else (false, a)

/-- Embedding of the MIME message built by `create_message`
(lines 108-152): the headers, body parts and the attachment parts that
were actually attached, in order. -/
structure MimeMessage where
  multipart : Bool
  to_header : String
  subject_header : String
  cc_header : Option String
  bcc_header : Option String
  body : String
  html_part : Option String
  attachmentParts : List String

/-- Embedding of `GmailAgent.create_message` (lines 108-156).  Python
truthiness governs the optional parts (`if email_req.html_body:` etc.),
an attachment path is attached only when `os.path.exists` holds for it
(line 139), and a nonexistent path is silently skipped.  The `Option`
return mirrors the `except` branch returning `None`; with file reads of
existing paths modelled as succeeding, the body raises nothing, so the
result is always `some`. -/
def GmailAgent.create_message (fs : List String) (req : EmailRequest) :
    Option MimeMessage :=
  some
    { multipart := optStrTruthy req.html_body || optListTruthy req.attachments
      to_header := String.intercalate ", " req.«to»
      subject_header := req.subject
      cc_header :=
        if optListTruthy req.cc then
          some (String.intercalate ", " (req.cc.getD []))
        else none
      bcc_header :=
        if optListTruthy req.bcc then
          some (String.intercalate ", " (req.bcc.getD []))
        else none
      body := req.body
      html_part := if optStrTruthy req.html_body then req.html_body else none
      attachmentParts :=
        if optListTruthy req.attachments then
          (req.attachments.getD []).filter (fun p => fs.contains p)
        else [] }

/-- Body of `send_email` once a session handle is available (lines
168-197): build the MIME message, then perform the one Gmail API send
call; `HttpError` and any other exception are caught and turned into a
failure `EmailResponse`.  `c` counts backend interactions already made;
the API send adds one. -/
def GmailAgent.send_email_authed (a : GmailAgent) (b : Backend)
    (req : EmailRequest) (c : Nat) : EmailResponse × GmailAgent × Nat :=
  match GmailAgent.create_message b.fs req with
  | none =>
    ({ success := false, error := some "Failed to create email message" },
     a, c)
  | some _msg =>
    match b.send with
    | .ok r =>
      ({ success := true, message_id := some r.id,
         details := some [("thread_id", optStrJson r.threadId)] },
       a, c + 1)
    | .httpError e =>
      ({ success := false, error := some ("Gmail API error: " ++ e) },
       a, c + 1)
    | .otherError e =>
      ({ success := false, error := some ("Unexpected error: " ++ e) },
       a, c + 1)

/-- Embedding of `GmailAgent.send_email` (lines 158-197): authenticate
lazily when `self.service` is unset (one backend interaction), then send.
Every failure is returned as an `EmailResponse`, never raised. -/
def GmailAgent.send_email (a : GmailAgent) (b : Backend)
    (req : EmailRequest) : EmailResponse × GmailAgent × Nat :=
  if a.service then
    GmailAgent.send_email_authed a b req 0
  else
    match GmailAgent.authenticate a b with
    | (true, a2) => GmailAgent.send_email_authed a2 b req 1
    | (false, a2) =>
      ({ success := false, error := some "Authentication failed" }, a2, 1)

/-- Embedding of the `try` block of `process_agent_message` (lines
205-248): compute the response payload and response type, the updated
agent state and the number of backend interactions.  The only statement
in the `try` body that can raise is `EmailRequest(**message.payload)`;
the `except` arm converts that failure into an `error_response` payload
`{error: "Processing error: <e>"}`. -/
def GmailAgent.dispatch (a : GmailAgent) (b : Backend)
    (message : AgentMessage) :
    (List (String × Json)) × String × GmailAgent × Nat :=
  if message.message_type = "email_send_request" then
    match EmailRequest.ofDict message.payload with
    | .error e =>
      ([("error", Json.str ("Processing error: " ++ e))],
       "error_response", a, 0)
    | .ok email_req =>
      let (email_response, a2, c) := GmailAgent.send_email a b email_req
      (EmailResponse.asdict email_response, "email_send_response", a2, c)
  else if message.message_type = "health_check" then
    ([("status", Json.str "healthy"),
      ("agent_id", Json.str a.agent_id),
      ("authenticated", Json.bool a.service)],
     "health_check_response", a, 0)
  else if message.message_type = "capability_inquiry" then
    ([("capabilities",
       Json.arr [.str "email_send", .str "html_email",
                 .str "attachments", .str "cc_bcc_support"]),
      ("agent_type", Json.str "gmail_agent"),
      ("version", Json.str "1.0")],
     "capability_response", a, 0)
  else
    ([("error",
       Json.str ("Unknown message type: " ++ message.message_type))],
     "error_response", a, 0)

/-- Embedding of `GmailAgent.process_agent_message` (lines 199-260): run
the dispatch, then build the single response envelope (lines 251-258)
with the dispatcher's own `agent_id`, the computed type and payload, the
response-construction time `now`, the request's `correlation_id` and
`reply_to` set to the request's `agent_id`. -/
def GmailAgent.process_agent_message (a : GmailAgent) (b : Backend)
    (now : String) (message : AgentMessage) :
    AgentMessage × GmailAgent × Nat :=
  let d := GmailAgent.dispatch a b message
  ({ agent_id := a.agent_id
     message_type := d.2.1
     timestamp := now
     payload := d.1
     correlation_id := message.correlation_id
     reply_to := some message.agent_id },
   d.2.2.1, d.2.2.2)

/-- Embedding of the body of `handle_message_json` after `json.loads`
succeeded (lines 267-273 and the generic `except` arm at lines 284-291):
construct the envelope from the parsed object; on failure return an
`error_response` built WITHOUT `correlation_id`/`reply_to` (the
constructor at lines 285-290 passes neither, so both default to `None`). -/
def GmailAgent.handle_message_value (a : GmailAgent) (b : Backend)
    (now : String) (j : Json) : Json × GmailAgent × Nat :=
  match AgentMessage.ofJson j with
  | .ok message =>
    let r := GmailAgent.process_agent_message a b now message
    (AgentMessage.asdict r.1, r.2.1, r.2.2)
  | .error e =>
    (AgentMessage.asdict
      { agent_id := a.agent_id
        message_type := "error_response"
        timestamp := now
        payload := [("error", Json.str ("Message handling error: " ++ e))] },
     a, 0)

/-- Embedding of `GmailAgent.handle_message_json` (lines 262-291):
`parsed` is the outcome of the external `json.loads`; a parse failure is
the `json.JSONDecodeError` arm (lines 275-282), which returns an
`error_response` with no `correlation_id`/`reply_to`. -/
def GmailAgent.handle_message_json (a : GmailAgent) (b : Backend)
    (now : String) (parsed : Except String Json) :
    Json × GmailAgent × Nat :=
  match parsed with
  | .ok j => GmailAgent.handle_message_value a b now j
  | .error e =>
    (AgentMessage.asdict
      { agent_id := a.agent_id
        message_type := "error_response"
        timestamp := now
        payload := [("error", Json.str ("Invalid JSON: " ++ e))] },
     a, 0)

/-- EmailResponse invariant of the spec: success implies a message id is
present and no error; failure implies an error is present. -/
def EmailResponse.invariant (r : EmailResponse) : Prop :=
  (r.success = true → r.message_id.isSome ∧ r.error = none) ∧
  (r.success = false → r.error.isSome)

/-- Concrete fresh agent instance (session handle unset) used to evaluate
the theorems on concrete inputs. -/
def agentFresh : GmailAgent :=
  { agent_id := "gmail-agent-001", service := false }

/-- Concrete backend on which authentication fails and nothing exists on
the filesystem. -/
def backendDown : Backend :=
  { authOk := false, send := .otherError "network down", fs := [] }

/-- Concrete backend on which authentication succeeds and the send call
returns a message id. -/
def backendUp : Backend :=
  { authOk := true, send := .ok ⟨"msg-1", some "thr-1"⟩,
    fs := ["a.txt", "c.txt"] }

/-- Concrete health-check request message. -/
def msgHealth : AgentMessage :=
  { agent_id := "client-agent-001", message_type := "health_check",
    timestamp := "t0", payload := [], correlation_id := some "corr-1" }

/-- Concrete capability-inquiry request message. -/
def msgCapability : AgentMessage :=
  { agent_id := "client-agent-001", message_type := "capability_inquiry",
    timestamp := "t0", payload := [] }

/-- Concrete message of an unknown type. -/
def msgUnknown : AgentMessage :=
  { agent_id := "client-agent-001", message_type := "bogus_type",
    timestamp := "t0", payload := [], correlation_id := some "corr-3" }

/-- Concrete email-send request whose payload omits the required field
`to`. -/
def msgSendNoTo : AgentMessage :=
  { agent_id := "client-agent-001", message_type := "email_send_request",
    timestamp := "t0",
    payload := [("subject", .str "greetings"), ("body", .str "hello")],
    correlation_id := some "corr-2" }

/-- Concrete valid email-send request payload. -/
def emailPayloadOk : List (String × Json) :=
  [("to", .arr [.str "dest"]), ("subject", .str "greetings"),
   ("body", .str "hello")]

/-- Concrete valid email-send request message. -/
def msgSendOk : AgentMessage :=
  { agent_id := "client-agent-001", message_type := "email_send_request",
    timestamp := "t0", payload := emailPayloadOk,
    correlation_id := some "corr-4" }

/-- Concrete email request declaring three attachments, of which only the
first and third exist on `backendUp.fs`. -/
def reqAttach : EmailRequest :=
  { «to» := ["dest"], subject := "greetings", body := "hello",
    attachments := some ["a.txt", "b.txt", "c.txt"] }

/-- Concrete email request that `emailPayloadOk` coerces to. -/
def reqOk : EmailRequest :=
  { «to» := ["dest"], subject := "greetings", body := "hello" }

/-- Concrete wire object that is valid JSON and carries `agent_id` and
`correlation_id`, but omits the required `timestamp`, so the envelope
constructor fails on it. -/
def jsonBadEnvelope : Json :=
  .obj [("agent_id", .str "c1"),
        ("message_type", .str "health_check"),
        ("payload", .obj []),
        ("correlation_id", .str "corr-9")]

/-- C1: every message processed by the dispatcher yields exactly one
response whose `correlation_id` equals the request's (absent when the
request had none), whose `reply_to` is the request's `agent_id`, and
whose `agent_id` is the dispatcher's own — in all branches alike. -/
theorem process_agent_message_correlation (a : GmailAgent) (b : Backend)
    (now : String) (m : AgentMessage) :
    (GmailAgent.process_agent_message a b now m).1.correlation_id
        = m.correlation_id ∧
    (GmailAgent.process_agent_message a b now m).1.reply_to
        = some m.agent_id ∧
    (GmailAgent.process_agent_message a b now m).1.agent_id
        = a.agent_id :=
  ⟨rfl, rfl, rfl⟩

/-- C8: serialising any `AgentMessage` to the wire format and parsing it
back yields the original message in all six fields. -/
theorem agentMessage_roundtrip (m : AgentMessage) :
    AgentMessage.ofJson (AgentMessage.asdict m) = Except.ok m := by
  obtain ⟨aid, mt, ts, p, c, r⟩ := m
  cases c <;> cases r <;> rfl

/-- C5: a message whose type is not one of the three known request types
gets an `error_response` whose payload is exactly
`{error: "Unknown message type: <type>"}`. -/
theorem unknown_type_error_response (a : GmailAgent) (b : Backend)
    (now : String) (m : AgentMessage)
    (h : m.message_type ∉
      ["email_send_request", "health_check", "capability_inquiry"]) :
    (GmailAgent.process_agent_message a b now m).1.message_type
        = "error_response" ∧
    (GmailAgent.process_agent_message a b now m).1.payload
        = [("error",
            Json.str ("Unknown message type: " ++ m.message_type))] := by
  simp only [List.mem_cons, List.not_mem_nil, or_false, not_or] at h
  obtain ⟨h1, h2, h3⟩ := h
  constructor <;>
    simp [GmailAgent.process_agent_message, GmailAgent.dispatch, h1, h2, h3]

/-- Witness for C5 at the concrete unknown type `bogus_type`. -/
theorem unknown_type_error_response_witness :
    (GmailAgent.process_agent_message agentFresh backendDown "t1"
        msgUnknown).1.message_type = "error_response" ∧
    (GmailAgent.process_agent_message agentFresh backendDown "t1"
        msgUnknown).1.payload
      = [("error",
          Json.str ("Unknown message type: " ++ msgUnknown.message_type))] :=
  unknown_type_error_response agentFresh backendDown "t1" msgUnknown
    (by decide)

/-- C6: a `health_check` message gets the payload
`{status: "healthy", agent_id: <own id>, authenticated: <session handle
present>}` and triggers no backend interaction; with the session handle
unset, `authenticated` is `false`. -/
theorem health_check_payload (a : GmailAgent) (b : Backend) (now : String)
    (m : AgentMessage) (h : m.message_type = "health_check") :
    (GmailAgent.process_agent_message a b now m).1.payload =
      [("status", Json.str "healthy"),
       ("agent_id", Json.str a.agent_id),
       ("authenticated", Json.bool a.service)] ∧
    (GmailAgent.process_agent_message a b now m).2.2 = 0 := by
  constructor <;>
    simp [GmailAgent.process_agent_message, GmailAgent.dispatch, h]

/-- Witness for C6 on a fresh agent (session handle unset): the payload
reports `authenticated: false` and the backend counter stays zero. -/
theorem health_check_payload_witness :
    (GmailAgent.process_agent_message agentFresh backendDown "t1"
        msgHealth).1.payload =
      [("status", Json.str "healthy"),
       ("agent_id", Json.str "gmail-agent-001"),
       ("authenticated", Json.bool false)] ∧
    (GmailAgent.process_agent_message agentFresh backendDown "t1"
        msgHealth).2.2 = 0 :=
  health_check_payload agentFresh backendDown "t1" msgHealth rfl

/-- C7: `capability_inquiry` is idempotent — two such messages processed
by agents in any states, with any backends and times, yield identical
response payloads (the constant capability description); processing it
leaves the state unchanged and performs no backend interaction. -/
theorem capability_inquiry_idempotent (a1 a2 : GmailAgent)
    (b1 b2 : Backend) (now1 now2 : String) (m1 m2 : AgentMessage)
    (h1 : m1.message_type = "capability_inquiry")
    (h2 : m2.message_type = "capability_inquiry") :
    (GmailAgent.process_agent_message a1 b1 now1 m1).1.payload =
      (GmailAgent.process_agent_message a2 b2 now2 m2).1.payload ∧
    (GmailAgent.process_agent_message a1 b1 now1 m1).2.1 = a1 ∧
    (GmailAgent.process_agent_message a1 b1 now1 m1).2.2 = 0 := by
  refine ⟨?_, ?_, ?_⟩ <;>
    simp [GmailAgent.process_agent_message, GmailAgent.dispatch, h1, h2]

/-- Witness for C7: a fresh agent with a down backend and an
authenticated agent with an up backend give the same capability payload. -/
theorem capability_inquiry_idempotent_witness :
    (GmailAgent.process_agent_message agentFresh backendDown "t1"
        msgCapability).1.payload =
      (GmailAgent.process_agent_message ⟨"other-agent", true⟩ backendUp
        "t2" msgCapability).1.payload ∧
    (GmailAgent.process_agent_message agentFresh backendDown "t1"
        msgCapability).2.1 = agentFresh ∧
    (GmailAgent.process_agent_message agentFresh backendDown "t1"
        msgCapability).2.2 = 0 :=
  capability_inquiry_idempotent agentFresh ⟨"other-agent", true⟩
    backendDown backendUp "t1" "t2" msgCapability msgCapability rfl rfl

/-- Helper for C3: the post-authentication body of `send_email` always
returns a response satisfying the EmailResponse invariant. -/
theorem send_email_authed_invariant (a : GmailAgent) (b : Backend)
    (req : EmailRequest) (c : Nat) :
    ((GmailAgent.send_email_authed a b req c).1).invariant := by
  unfold GmailAgent.send_email_authed GmailAgent.create_message
  cases b.send <;> simp [EmailResponse.invariant]

/-- Helper for C3: `send_email` always returns a response satisfying the
EmailResponse invariant. -/
theorem send_email_invariant (a : GmailAgent) (b : Backend)
    (req : EmailRequest) :
    ((GmailAgent.send_email a b req).1).invariant := by
  unfold GmailAgent.send_email GmailAgent.authenticate
  by_cases h : a.service
  · simpa [h] using send_email_authed_invariant a b req 0
  · by_cases h2 : b.authOk
    · simpa [h, h2] using
        send_email_authed_invariant { a with service := true } b req 1
    · simp [h, h2, EmailResponse.invariant]

/-- C3: every `EmailResponse` returned by `send_email` satisfies the
EmailResponse invariant (success implies a message id and no error;
failure implies an error), and every `email_send_request` whose payload
coerces to an `EmailRequest` yields a response of type
`email_send_response` whose payload is the serialisation of an
`EmailResponse` satisfying that invariant. -/
theorem email_send_response_invariant :
    (∀ (a : GmailAgent) (b : Backend) (req : EmailRequest),
       ((GmailAgent.send_email a b req).1).invariant) ∧
    (∀ (a : GmailAgent) (b : Backend) (now : String) (m : AgentMessage)
       (req : EmailRequest),
       m.message_type = "email_send_request" →
       EmailRequest.ofDict m.payload = .ok req →
       (GmailAgent.process_agent_message a b now m).1.message_type
           = "email_send_response" ∧
       ∃ r : EmailResponse,
         (GmailAgent.process_agent_message a b now m).1.payload
             = r.asdict ∧ r.invariant) := by
  refine ⟨send_email_invariant, ?_⟩
  intro a b now m req hty hok
  rcases hs : GmailAgent.send_email a b req with ⟨er, a2, c⟩
  have hinv : er.invariant := by
    have := send_email_invariant a b req
    rwa [hs] at this
  constructor
  · simp [GmailAgent.process_agent_message, GmailAgent.dispatch, hty,
          hok, hs]
  · refine ⟨er, ?_, hinv⟩
    simp [GmailAgent.process_agent_message, GmailAgent.dispatch, hty,
          hok, hs]

/-- Witness for C3 on the concrete valid request `msgSendOk` against the
up backend. -/
theorem email_send_response_invariant_witness :
    (GmailAgent.process_agent_message agentFresh backendUp "t1"
        msgSendOk).1.message_type = "email_send_response" ∧
    ∃ r : EmailResponse,
      (GmailAgent.process_agent_message agentFresh backendUp "t1"
          msgSendOk).1.payload = r.asdict ∧ r.invariant :=
  email_send_response_invariant.2 agentFresh backendUp "t1" msgSendOk
    reqOk rfl rfl

/-- C4 counterexample: for the known request type `capability_inquiry`
the response type the dispatcher produces is `capability_response`, not
the input `message_type` with `_response` appended
(`capability_inquiry_response`). -/
theorem response_type_suffix_counterexample :
    ¬ ((GmailAgent.process_agent_message agentFresh backendDown "t1"
          msgCapability).1.message_type
        = msgCapability.message_type ++ "_response") := by
  decide

/-- C4 (amended): `email_send_request` and `health_check` get the input
type with `_response` appended (the email branch when the payload coerces;
a failing coercion gets `error_response`); `capability_inquiry` gets
`capability_response`; every unknown type gets `error_response`. -/
theorem response_type_mapping (a : GmailAgent) (b : Backend)
    (now : String) (m : AgentMessage) :
    (m.message_type = "health_check" →
      (GmailAgent.process_agent_message a b now m).1.message_type
        = "health_check_response") ∧
    (m.message_type = "capability_inquiry" →
      (GmailAgent.process_agent_message a b now m).1.message_type
        = "capability_response") ∧
    (m.message_type = "email_send_request" →
      (∀ req, EmailRequest.ofDict m.payload = .ok req →
        (GmailAgent.process_agent_message a b now m).1.message_type
          = "email_send_response") ∧
      (∀ e, EmailRequest.ofDict m.payload = .error e →
        (GmailAgent.process_agent_message a b now m).1.message_type
          = "error_response")) ∧
    (m.message_type ∉
        ["email_send_request", "health_check", "capability_inquiry"] →
      (GmailAgent.process_agent_message a b now m).1.message_type
        = "error_response") := by
  refine ⟨fun h => ?_, fun h => ?_, fun h => ⟨fun req hok => ?_,
    fun e herr => ?_⟩, fun h => ?_⟩
  · simp [GmailAgent.process_agent_message, GmailAgent.dispatch, h]
  · simp [GmailAgent.process_agent_message, GmailAgent.dispatch, h]
  · rcases hs : GmailAgent.send_email a b req with ⟨er, a2, c⟩
    simp [GmailAgent.process_agent_message, GmailAgent.dispatch, h, hok,
          hs]
  · simp [GmailAgent.process_agent_message, GmailAgent.dispatch, h, herr]
  · simp only [List.mem_cons, List.not_mem_nil, or_false, not_or] at h
    obtain ⟨h1, h2, h3⟩ := h
    simp [GmailAgent.process_agent_message, GmailAgent.dispatch, h1, h2,
          h3]

/-- Witness for the amended C4 at a concrete `health_check` message. -/
theorem response_type_mapping_witness :
    (GmailAgent.process_agent_message agentFresh backendDown "t1"
        msgHealth).1.message_type = "health_check_response" :=
  (response_type_mapping agentFresh backendDown "t1" msgHealth).1 rfl

/-- C2: the dispatcher never raises — `handle_message_json` always
returns the serialisation of a well-formed `AgentMessage`, whatever the
parse outcome and envelope — and an `email_send_request` payload that
omits the required field `to` (all its keys being `EmailRequest` fields)
yields an `error_response` whose payload names the missing field. -/
theorem dispatcher_never_raises :
    (∀ (a : GmailAgent) (b : Backend) (now : String)
       (parsed : Except String Json),
       ∃ (resp : AgentMessage) (a2 : GmailAgent) (c : Nat),
         GmailAgent.handle_message_json a b now parsed
           = (AgentMessage.asdict resp, a2, c)) ∧
    (∀ (a : GmailAgent) (b : Backend) (now : String) (m : AgentMessage),
       m.message_type = "email_send_request" →
       m.payload.all (fun kv => emailRequestKeys.contains kv.1) = true →
       m.payload.lookup "to" = none →
       (GmailAgent.process_agent_message a b now m).1.message_type
           = "error_response" ∧
       (GmailAgent.process_agent_message a b now m).1.payload
         = [("error", Json.str
             "Processing error: missing 1 required positional argument: to")]) := by
  constructor
  · intro a b now parsed
    match parsed with
    | .error e => exact ⟨_, a, 0, rfl⟩
    | .ok j =>
      match hm : AgentMessage.ofJson j with
      | .error e =>
        refine ⟨{ agent_id := a.agent_id
                  message_type := "error_response"
                  timestamp := now
                  payload := [("error",
                    Json.str ("Message handling error: " ++ e))] },
                a, 0, ?_⟩
        simp [GmailAgent.handle_message_json,
              GmailAgent.handle_message_value, hm]
      | .ok msg =>
        refine ⟨(GmailAgent.process_agent_message a b now msg).1,
          (GmailAgent.process_agent_message a b now msg).2.1,
          (GmailAgent.process_agent_message a b now msg).2.2, ?_⟩
        simp [GmailAgent.handle_message_json,
              GmailAgent.handle_message_value, hm]
  · intro a b now m hty hall hto
    have hfind : m.payload.find?
        (fun kv => !(emailRequestKeys.contains kv.1)) = none := by
      rw [List.find?_eq_none]
      intro x hx
      simpa using List.all_eq_true.mp hall x hx
    have hofd : EmailRequest.ofDict m.payload
        = .error "missing 1 required positional argument: to" := by
      unfold EmailRequest.ofDict
      rw [hfind]
      simp [reqField, hto, Except.bind, Bind.bind]
    constructor <;>
      simp [GmailAgent.process_agent_message, GmailAgent.dispatch, hty,
            hofd]

/-- Witness for C2 at the concrete payload omitting `to`. -/
theorem dispatcher_never_raises_witness :
    (GmailAgent.process_agent_message agentFresh backendDown "t1"
        msgSendNoTo).1.message_type = "error_response" ∧
    (GmailAgent.process_agent_message agentFresh backendDown "t1"
        msgSendNoTo).1.payload
      = [("error", Json.str
          "Processing error: missing 1 required positional argument: to")] :=
  dispatcher_never_raises.2 agentFresh backendDown "t1" msgSendNoTo rfl
    (by decide) rfl

/-- C9: for every email request declaring an attachments list,
`create_message` succeeds and the built message contains attachment parts
exactly for the declared paths that exist on the filesystem, in list
order (nonexistent paths are silently skipped). -/
theorem create_message_skips_missing (fs : List String)
    (req : EmailRequest) (atts : List String)
    (h : req.attachments = some atts) :
    ∃ msg, GmailAgent.create_message fs req = some msg ∧
      msg.attachmentParts = atts.filter (fun p => fs.contains p) := by
  refine ⟨_, rfl, ?_⟩
  simp only [GmailAgent.create_message, h]
  cases atts <;> simp [optListTruthy]

/-- Witness for C9: of the three declared attachments only `a.txt` and
`c.txt` exist, and exactly those are attached, in order. -/
theorem create_message_skips_missing_witness :
    ∃ msg, GmailAgent.create_message backendUp.fs reqAttach = some msg ∧
      msg.attachmentParts = ["a.txt", "c.txt"] := by
  obtain ⟨msg, h1, h2⟩ := create_message_skips_missing backendUp.fs
    reqAttach ["a.txt", "b.txt", "c.txt"] rfl
  exact ⟨msg, h1, by rw [h2]; decide⟩

/-- C10: when the wire object is valid JSON but the envelope constructor
fails on it, the returned `error_response` carries neither
`correlation_id` nor `reply_to`, whatever the input object contained. -/
theorem malformed_envelope_no_correlation (a : GmailAgent) (b : Backend)
    (now : String) (j : Json) (e : String)
    (h : AgentMessage.ofJson j = .error e) :
    GmailAgent.handle_message_value a b now j =
      (AgentMessage.asdict
        { agent_id := a.agent_id
          message_type := "error_response"
          timestamp := now
          payload := [("error",
            Json.str ("Message handling error: " ++ e))]
          correlation_id := none
          reply_to := none },
       a, 0) := by
  simp [GmailAgent.handle_message_value, h]

/-- Witness for C10 at a concrete object that carries `agent_id` and
`correlation_id` but omits `timestamp`. -/
theorem malformed_envelope_no_correlation_witness :
    GmailAgent.handle_message_value agentFresh backendDown "t1"
        jsonBadEnvelope =
      (AgentMessage.asdict
        { agent_id := "gmail-agent-001"
          message_type := "error_response"
          timestamp := "t1"
          payload := [("error",
            Json.str ("Message handling error: "
              ++ "missing 1 required positional argument: timestamp"))]
          correlation_id := none
          reply_to := none },
       agentFresh, 0) :=
  malformed_envelope_no_correlation agentFresh backendDown "t1"
    jsonBadEnvelope "missing 1 required positional argument: timestamp"
    rfl
